import Mathlib

/-!
Verification of the drywall material/labour estimator core
(src/Drywall_Estimator.py). The per-room geometry, material takeoff,
high-part qualification and pricing computations are embedded as pure
functions over ℚ, following the source line by line; UI plumbing
(widgets, downloads) is out of scope. Theorems check the spec's stated
formulas, guard behaviour, boundary rules and example scenarios.
-/

namespace DrywallEstimator

/-- Conversion factor ft² → m² (source line 10). -/
def FT2_TO_M2 : ℚ := 0.09290304

/-- A rectangular window or door opening, dimensions in feet. -/
structure Opening where
  width : ℚ
  height : ℚ

/-- Per-room input: dimensions in feet, ceiling flag, opening lists. -/
structure RoomSpec where
  length : ℚ
  width : ℚ
  height : ℚ
  includeCeiling : Bool
  windows : List Opening
  doors : List Opening

/-- `perimeter = 2 * (length + width)` (line 155). -/
def perimeter (r : RoomSpec) : ℚ := 2 * (r.length + r.width)

/-- `wall_area_gross = perimeter * height` (line 156). -/
def wall_area_gross (r : RoomSpec) : ℚ := perimeter r * r.height

/-- `openings_area = sum(w*h for windows) + sum(w*h for doors)` (line 157). -/
def openings_area (r : RoomSpec) : ℚ :=
  (r.windows.map (fun o => o.width * o.height)).sum +
  (r.doors.map (fun o => o.width * o.height)).sum

/-- `wall_area_net = max(wall_area_gross - openings_area, 0.0)` (line 158). -/
def wall_area_net (r : RoomSpec) : ℚ :=
  max (wall_area_gross r - openings_area r) 0

/-- `ceiling_area = (length * width) if include_ceiling else 0.0` (line 159). -/
def ceiling_area (r : RoomSpec) : ℚ :=
  if r.includeCeiling then r.length * r.width else 0

/-- `total_area_ft2 = wall_area_net + ceiling_area` (line 160). -/
def total_area_ft2 (r : RoomSpec) : ℚ := wall_area_net r + ceiling_area r

/-- `waste_multiplier = 1.0 + waste_pct / 100.0` (line 161). -/
def waste_multiplier (waste_pct : ℚ) : ℚ := 1 + waste_pct / 100

/-- `total_with_waste_ft2 = total_area_ft2 * waste_multiplier` (line 162). -/
def total_with_waste_ft2 (r : RoomSpec) (waste_pct : ℚ) : ℚ :=
  total_area_ft2 r * waste_multiplier waste_pct

/-- Resilient-channel linear feet contributed by one room (lines 164-167):
only when RC is enabled, the ceiling is included and both dimensions are
positive does the room add `(floor(width*12 / spacing) + 1) * length`. -/
def rc_room_lf (include_rc : Bool) (r : RoomSpec) (rc_spacing_in : ℚ) : ℚ :=
  if include_rc = true ∧ r.includeCeiling = true ∧ 0 < r.width ∧ 0 < r.length then
    ((⌊r.width * 12 / rc_spacing_in⌋ + 1 : ℤ) : ℚ) * r.length
  else 0

/-- Running total of RC linear feet accumulated across rooms (line 90, 167). -/
def rc_total_lf (include_rc : Bool) (rooms : List RoomSpec) (rc_spacing_in : ℚ) : ℚ :=
  rooms.foldl (fun acc r => acc + rc_room_lf include_rc r rc_spacing_in) 0

/-- Sheet-size selection: `4x8 (32 ft^2)` or `4x12 (48 ft^2)` (line 47). -/
inductive SheetSize
  | s4x8
  | s4x12

/-- `sheet_area = 32.0 if "4x8" in sheet_size else 48.0` (line 237). -/
def sheet_area (sz : SheetSize) : ℚ :=
  match sz with
  | .s4x8 => 32
  | .s4x12 => 48

/-- `sheets = math.ceil(total_waste_ft2 / sheet_area) if sheet_area > 0 else 0`
(line 238). -/
def sheets (total_waste_ft2 sa : ℚ) : ℤ :=
  if 0 < sa then ⌈total_waste_ft2 / sa⌉ else 0

/-- `mud_gal = (total_waste_ft2 / 1000.0) * mud_gal_per_1000` (line 240). -/
def mud_gal (total_waste_ft2 mud_gal_per_1000 : ℚ) : ℚ :=
  total_waste_ft2 / 1000 * mud_gal_per_1000

/-- `mud_pails = math.ceil(mud_gal / mud_pail_gal) if mud_pail_gal > 0 else 0`
(line 241). -/
def mud_pails (total_waste_ft2 mud_gal_per_1000 mud_pail_gal : ℚ) : ℤ :=
  if 0 < mud_pail_gal then ⌈mud_gal total_waste_ft2 mud_gal_per_1000 / mud_pail_gal⌉ else 0

/-- `tape_rolls = math.ceil(total_waste_ft2 / tape_sqft_per_roll) if ... > 0 else 0`
(line 243). -/
def tape_rolls (total_waste_ft2 tape_sqft_per_roll : ℚ) : ℤ :=
  if 0 < tape_sqft_per_roll then ⌈total_waste_ft2 / tape_sqft_per_roll⌉ else 0

/-- `screws_qty = math.ceil(total_waste_ft2 * screws_per_sqft)` (line 245). -/
def screws_qty (total_waste_ft2 screws_per_sqft : ℚ) : ℤ :=
  ⌈total_waste_ft2 * screws_per_sqft⌉

/-- `screws_boxes = math.ceil(screws_qty / screws_per_box) if screws_per_box > 0 else 0`
(line 246). -/
def screws_boxes (total_waste_ft2 screws_per_sqft screws_per_box : ℚ) : ℤ :=
  if 0 < screws_per_box then
    ⌈(screws_qty total_waste_ft2 screws_per_sqft : ℚ) / screws_per_box⌉
  else 0

/-- `corner_bead_lf = (total_waste_ft2 / 1000.0) * corner_bead_lf_per_1000` (line 248). -/
def corner_bead_lf (total_waste_ft2 corner_bead_lf_per_1000 : ℚ) : ℚ :=
  total_waste_ft2 / 1000 * corner_bead_lf_per_1000

/-- `corner_bead_pcs = math.ceil(corner_bead_lf / corner_bead_piece_len_ft) if ... > 0 else 0`
(line 249). -/
def corner_bead_pcs (total_waste_ft2 corner_bead_lf_per_1000 corner_bead_piece_len_ft : ℚ) : ℤ :=
  if 0 < corner_bead_piece_len_ft then
    ⌈corner_bead_lf total_waste_ft2 corner_bead_lf_per_1000 / corner_bead_piece_len_ft⌉
  else 0

/-- `rc_pieces` (lines 251-253): 0 unless RC is enabled, then guarded ceiling
division of the accumulated linear feet by the piece length. -/
def rc_pieces (include_rc : Bool) (rc_lf rc_piece_length_ft : ℚ) : ℤ :=
  if include_rc = true then
    (if 0 < rc_piece_length_ft then ⌈rc_lf / rc_piece_length_ft⌉ else 0)
  else 0

/-- One supplemental high-charge entry (lines 197-204). -/
structure HighPartEntry where
  height : ℚ
  area_ft2 : ℚ

/-- `qualifies = (hp_height > 10.0 and hp_area > 64.0)` (line 203). -/
def qualifies (e : HighPartEntry) : Bool :=
  decide (10 < e.height ∧ 64 < e.area_ft2)

/-- The accumulation loop of lines 197-207: running qualifying area total and
qualifying count, both starting at zero. -/
def hp_accum (l : List HighPartEntry) : ℚ × ℕ :=
  l.foldl (fun acc e => if qualifies e then (acc.1 + e.area_ft2, acc.2 + 1) else acc) (0, 0)

/-- `qualifying_hp_area_ft2` (lines 194, 206). -/
def qualifying_hp_area_ft2 (l : List HighPartEntry) : ℚ := (hp_accum l).1

/-- `qualifying_hp_count` (lines 195, 207). -/
def qualifying_hp_count (l : List HighPartEntry) : ℕ := (hp_accum l).2

/-- The `materials_breakdown` cost column (lines 275-292): per-line
quantity × unit cost, with the RC line present only when RC is enabled,
and the pot-lights line always last. -/
def materials_breakdown (include_rc : Bool)
    (sheets_n mud_pails_n tape_rolls_n screws_boxes_n corner_bead_n rc_pieces_n : ℤ)
    (pot_light_count : ℕ)
    (cost_per_sheet cost_mud_pail cost_tape_roll cost_screws_box
      cost_corner_bead_piece cost_rc_piece pot_light_cost : ℚ) : List ℚ :=
  (if include_rc = true then
    [(sheets_n : ℚ) * cost_per_sheet, (mud_pails_n : ℚ) * cost_mud_pail,
     (tape_rolls_n : ℚ) * cost_tape_roll, (screws_boxes_n : ℚ) * cost_screws_box,
     (corner_bead_n : ℚ) * cost_corner_bead_piece, (rc_pieces_n : ℚ) * cost_rc_piece]
  else
    [(sheets_n : ℚ) * cost_per_sheet, (mud_pails_n : ℚ) * cost_mud_pail,
     (tape_rolls_n : ℚ) * cost_tape_roll, (screws_boxes_n : ℚ) * cost_screws_box,
     (corner_bead_n : ℚ) * cost_corner_bead_piece])
  ++ [(pot_light_count : ℚ) * pot_light_cost]

/-- `material_subtotal = sum(v for _, _, v in materials_breakdown)` (line 294). -/
def material_subtotal (include_rc : Bool)
    (sheets_n mud_pails_n tape_rolls_n screws_boxes_n corner_bead_n rc_pieces_n : ℤ)
    (pot_light_count : ℕ)
    (cost_per_sheet cost_mud_pail cost_tape_roll cost_screws_box
      cost_corner_bead_piece cost_rc_piece pot_light_cost : ℚ) : ℚ :=
  (materials_breakdown include_rc sheets_n mud_pails_n tape_rolls_n screws_boxes_n
    corner_bead_n rc_pieces_n pot_light_count cost_per_sheet cost_mud_pail
    cost_tape_roll cost_screws_box cost_corner_bead_piece cost_rc_piece pot_light_cost).sum

/-- `charge_area_ft2 = total_waste_ft2 + qualifying_hp_area_ft2` (line 297). -/
def charge_area_ft2 (total_waste_ft2 qualifying_hp_area : ℚ) : ℚ :=
  total_waste_ft2 + qualifying_hp_area

/-- Area labour cost selection (lines 300-308): per-ft² rate if positive,
else per-m² rate on the metric conversion if positive, else 0. -/
def labour_area_cost (charge_area labour_rate_sqft labour_rate_sqm : ℚ) : ℚ :=
  if 0 < labour_rate_sqft then charge_area * labour_rate_sqft
  else if 0 < labour_rate_sqm then charge_area * FT2_TO_M2 * labour_rate_sqm
  else 0

/-- High-parts labour cost selection (lines 311-316): flat per-part rate when
positive and at least one part qualifies, else qualifying area × ft² rate. -/
def labour_high_parts_cost (count : ℕ) (qual_area flat rate_sqft : ℚ) : ℚ :=
  if 0 < flat ∧ 0 < count then (count : ℚ) * flat else qual_area * rate_sqft

/-- `labour_subtotal = labour_area_cost + labour_high_parts_cost` (line 318). -/
def labour_subtotal (area_cost high_cost : ℚ) : ℚ := area_cost + high_cost

/-- `subtotal_no_tax = material_subtotal + labour_subtotal` (line 320). -/
def subtotal_no_tax (material labour : ℚ) : ℚ := material + labour

/-- `total_with_tax = subtotal * (1 + tax_pct/100) if tax_pct > 0 else subtotal`
(line 321). -/
def total_with_tax (subtotal tax_pct : ℚ) : ℚ :=
  if 0 < tax_pct then subtotal * (1 + tax_pct / 100) else subtotal

/-- `cash_price = subtotal_no_tax` (line 322). -/
def cash_price (subtotal : ℚ) : ℚ := subtotal

/-- The 10×10×8 ft example room: ceiling included, no openings. -/
def exampleRoom : RoomSpec :=
  { length := 10, width := 10, height := 8, includeCeiling := true,
    windows := [], doors := [] }

/-- A 2×2×1 ft room with a single 10×10 ft window: its openings area (100 ft²)
far exceeds its gross wall area (8 ft²). -/
def bigOpeningRoom : RoomSpec :=
  { length := 2, width := 2, height := 1, includeCeiling := false,
    windows := [⟨10, 10⟩], doors := [] }

/-- C1: the Geometry Calculator satisfies the spec's per-room formulas for
every room and waste percentage, and on the 10×10×8 example room with
ceiling and no openings returns perimeter 40, gross wall 320, net wall 320,
ceiling 100, total 420 ft² and 462 ft² at 10 % waste. -/
theorem geometry_calculator_correct :
    (∀ (r : RoomSpec) (w : ℚ),
      perimeter r = 2 * (r.length + r.width) ∧
      wall_area_gross r = perimeter r * r.height ∧
      wall_area_net r = max (wall_area_gross r - openings_area r) 0 ∧
      ceiling_area r = (if r.includeCeiling then r.length * r.width else 0) ∧
      total_area_ft2 r = wall_area_net r + ceiling_area r ∧
      total_with_waste_ft2 r w = total_area_ft2 r * (1 + w / 100)) ∧
    perimeter exampleRoom = 40 ∧
    wall_area_gross exampleRoom = 320 ∧
    wall_area_net exampleRoom = 320 ∧
    ceiling_area exampleRoom = 100 ∧
    total_area_ft2 exampleRoom = 420 ∧
    total_with_waste_ft2 exampleRoom 10 = 462 := by
  refine ⟨fun r w => ⟨rfl, rfl, rfl, rfl, rfl, rfl⟩, ?_, ?_, ?_, ?_, ?_, ?_⟩ <;>
    norm_num [perimeter, wall_area_gross, wall_area_net, ceiling_area, total_area_ft2,
      total_with_waste_ft2, openings_area, waste_multiplier, exampleRoom]

/-- C2: with positive divisors, the Takeoff Aggregator computes each line by
the spec's formula (ceiling rounding to purchasable units), the sheet area is
32 or 48 ft², and the concrete examples hold: 1000 ft² at 32 ft²/sheet gives
32 sheets; factors 9.5 gal/1000 ft² and 4.5 gal pails at 1000 ft² give
9.5 gallons and 3 pails. -/
theorem takeoff_aggregator_correct
    (tw mgp pail tape ssf box cbp plen : ℚ) (sz : SheetSize)
    (hpail : 0 < pail) (htape : 0 < tape) (hbox : 0 < box) (hplen : 0 < plen) :
    sheets tw (sheet_area sz) = ⌈tw / sheet_area sz⌉ ∧
    (sheet_area sz = 32 ∨ sheet_area sz = 48) ∧
    mud_gal tw mgp = tw / 1000 * mgp ∧
    mud_pails tw mgp pail = ⌈mud_gal tw mgp / pail⌉ ∧
    tape_rolls tw tape = ⌈tw / tape⌉ ∧
    screws_qty tw ssf = ⌈tw * ssf⌉ ∧
    screws_boxes tw ssf box = ⌈(screws_qty tw ssf : ℚ) / box⌉ ∧
    corner_bead_lf tw cbp = tw / 1000 * cbp ∧
    corner_bead_pcs tw cbp plen = ⌈corner_bead_lf tw cbp / plen⌉ ∧
    sheets 1000 (sheet_area SheetSize.s4x8) = 32 ∧
    mud_gal 1000 9.5 = 9.5 ∧
    mud_pails 1000 9.5 4.5 = 3 := by
  have hsa : (0 : ℚ) < sheet_area sz := by cases sz <;> norm_num [sheet_area]
  refine ⟨by rw [sheets, if_pos hsa], by cases sz <;> simp [sheet_area], rfl,
    by rw [mud_pails, if_pos hpail], by rw [tape_rolls, if_pos htape], rfl,
    by rw [screws_boxes, if_pos hbox], rfl,
    by rw [corner_bead_pcs, if_pos hplen], ?_, by norm_num [mud_gal], ?_⟩
  · have : sheets 1000 (sheet_area SheetSize.s4x8) = ⌈(1000 : ℚ) / 32⌉ := by
      norm_num [sheets, sheet_area]
    rw [this, Int.ceil_eq_iff]; norm_num
  · have : mud_pails 1000 9.5 4.5 = ⌈(19 : ℚ) / 9⌉ := by
      norm_num [mud_pails, mud_gal]
    rw [this, Int.ceil_eq_iff]; norm_num

/-- C2 witness: the positivity hypotheses hold at the example factors and the
theorem yields the example's sheet and pail counts. -/
theorem takeoff_aggregator_correct_witness :
    sheets 1000 (sheet_area SheetSize.s4x8) = 32 ∧ mud_pails 1000 9.5 4.5 = 3 := by
  have h := takeoff_aggregator_correct 1000 9.5 4.5 1200 1.25 1000 50 8 SheetSize.s4x8
    (by norm_num) (by norm_num) (by norm_num) (by norm_num)
  exact ⟨h.2.2.2.2.2.2.2.2.2.1, h.2.2.2.2.2.2.2.2.2.2.2⟩

/-- C3: the chargeable area is `totalWasteArea + qualifyingHighPartArea`; the
area labour cost uses the ft² rate whenever it is positive, falls back to the
m² rate on the metric conversion, else 0; and at rate $2/ft² on 500 ft² it is
$1000 for every m² rate. -/
theorem labour_area_cost_correct (tw qa fr mr : ℚ) :
    charge_area_ft2 tw qa = tw + qa ∧
    (0 < fr → labour_area_cost (charge_area_ft2 tw qa) fr mr = (tw + qa) * fr) ∧
    (fr ≤ 0 → 0 < mr →
      labour_area_cost (charge_area_ft2 tw qa) fr mr = (tw + qa) * FT2_TO_M2 * mr) ∧
    (fr ≤ 0 → mr ≤ 0 → labour_area_cost (charge_area_ft2 tw qa) fr mr = 0) ∧
    labour_area_cost 500 2 mr = 1000 := by
  refine ⟨rfl, fun h => ?_, fun h1 h2 => ?_, fun h1 h2 => ?_, ?_⟩
  · rw [labour_area_cost, if_pos h]; rfl
  · rw [labour_area_cost, if_neg (not_lt.2 h1), if_pos h2]; rfl
  · rw [labour_area_cost, if_neg (not_lt.2 h1), if_neg (not_lt.2 h2)]
  · rw [labour_area_cost, if_pos (by norm_num : (0 : ℚ) < 2)]; norm_num

/-- C3 witness: at chargeable area 500 ft² (400 waste + 100 high-part), ft²
rate $2 and m² rate $3 both set, the ft² branch applies and gives $1000. -/
theorem labour_area_cost_correct_witness :
    labour_area_cost (charge_area_ft2 400 100) 2 3 = (400 + 100) * 2 ∧
    labour_area_cost 500 2 3 = 1000 :=
  ⟨(labour_area_cost_correct 400 100 2 3).2.1 (by norm_num),
   (labour_area_cost_correct 400 100 2 3).2.2.2.2⟩

/-- The high-part accumulation loop from any starting pair equals the filter
length and filtered area sum added to the start. -/
theorem hp_accum_go (l : List HighPartEntry) (a : ℚ) (c : ℕ) :
    List.foldl (fun acc e => if qualifies e then (acc.1 + e.area_ft2, acc.2 + 1) else acc)
        (a, c) l
      = (a + ((l.filter qualifies).map HighPartEntry.area_ft2).sum,
         c + (l.filter qualifies).length) := by
  induction l generalizing a c with
  | nil => simp
  | cons e t ih =>
    by_cases h : qualifies e
    · simp only [List.foldl_cons, h, if_pos, List.filter_cons_of_pos h, List.map_cons,
        List.sum_cons, List.length_cons, ih]
      refine Prod.ext ?_ ?_ <;> simp <;> [ring; omega]
    · simp only [List.foldl_cons, h, Bool.false_eq_true, if_neg,
        List.filter_cons_of_neg (by simpa using h), ih]
      simp

/-- C4: a high part qualifies iff height > 10 and area > 64 (both strict);
the accumulated qualifying count and area equal the filter's length and area
sum; and the boundary cases behave as stated (10 or 64 exactly fail,
10.01 and 64.01 succeed). -/
theorem high_part_qualifier_correct :
    (∀ e : HighPartEntry, qualifies e = true ↔ (10 < e.height ∧ 64 < e.area_ft2)) ∧
    (∀ l : List HighPartEntry,
      qualifying_hp_count l = (l.filter qualifies).length ∧
      qualifying_hp_area_ft2 l = ((l.filter qualifies).map HighPartEntry.area_ft2).sum) ∧
    qualifies ⟨10, 100⟩ = false ∧
    qualifies ⟨12, 64⟩ = false ∧
    qualifies ⟨10.01, 64.01⟩ = true := by
  refine ⟨fun e => by simp [qualifies], fun l => ?_, ?_, ?_, ?_⟩
  · rw [qualifying_hp_count, qualifying_hp_area_ft2, hp_accum, hp_accum_go]
    simp
  · simp only [qualifies, decide_eq_false_iff_not, not_and, not_lt]
    intro h
    norm_num at h
  · simp only [qualifies, decide_eq_false_iff_not, not_and, not_lt]
    intro
    norm_num
  · simp only [qualifies, decide_eq_true_eq]
    norm_num

/-- C5: every guarded takeoff division returns 0 on a non-positive divisor,
and a zero total waste area or a zero coverage factor gives a 0 quantity on
the corresponding line; all takeoff functions are total. -/
theorem takeoff_guards_and_zero (tw mgp pail tape ssf box cbp plen rclf rcplen sa : ℚ) :
    (sa ≤ 0 → sheets tw sa = 0) ∧
    (pail ≤ 0 → mud_pails tw mgp pail = 0) ∧
    (tape ≤ 0 → tape_rolls tw tape = 0) ∧
    (box ≤ 0 → screws_boxes tw ssf box = 0) ∧
    (plen ≤ 0 → corner_bead_pcs tw cbp plen = 0) ∧
    (rcplen ≤ 0 → rc_pieces true rclf rcplen = 0) ∧
    rc_pieces false rclf rcplen = 0 ∧
    sheets 0 sa = 0 ∧ mud_pails 0 mgp pail = 0 ∧ tape_rolls 0 tape = 0 ∧
    screws_qty 0 ssf = 0 ∧ screws_boxes 0 ssf box = 0 ∧ corner_bead_pcs 0 cbp plen = 0 ∧
    mud_gal tw 0 = 0 ∧ mud_pails tw 0 pail = 0 ∧
    screws_qty tw 0 = 0 ∧ screws_boxes tw 0 box = 0 ∧
    corner_bead_lf tw 0 = 0 ∧ corner_bead_pcs tw 0 plen = 0 := by
  refine ⟨fun h => by rw [sheets, if_neg (not_lt.2 h)],
    fun h => by rw [mud_pails, if_neg (not_lt.2 h)],
    fun h => by rw [tape_rolls, if_neg (not_lt.2 h)],
    fun h => by rw [screws_boxes, if_neg (not_lt.2 h)],
    fun h => by rw [corner_bead_pcs, if_neg (not_lt.2 h)],
    fun h => by rw [rc_pieces]; simp [not_lt.2 h],
    by rw [rc_pieces]; simp,
    by simp [sheets, zero_div],
    by simp [mud_pails, mud_gal, zero_div],
    by simp [tape_rolls, zero_div],
    by simp [screws_qty],
    by simp [screws_boxes, screws_qty, zero_div],
    by simp [corner_bead_pcs, corner_bead_lf, zero_div],
    by simp [mud_gal],
    by simp [mud_pails, mud_gal, zero_div],
    by simp [screws_qty],
    by simp [screws_boxes, screws_qty, zero_div],
    by simp [corner_bead_lf],
    by simp [corner_bead_pcs, corner_bead_lf, zero_div]⟩

/-- C5 witness: at zero divisors (pail size, tape coverage, box size, piece
lengths, sheet area all 0) every guarded line returns 0 on a nonzero area. -/
theorem takeoff_guards_and_zero_witness :
    sheets 5 0 = 0 ∧ mud_pails 5 1 0 = 0 ∧ tape_rolls 5 0 = 0 ∧
    screws_boxes 5 1 0 = 0 ∧ corner_bead_pcs 5 1 0 = 0 ∧ rc_pieces true 7 0 = 0 := by
  have h := takeoff_guards_and_zero 5 1 0 0 1 0 1 0 7 0 0
  exact ⟨h.1 le_rfl, h.2.1 le_rfl, h.2.2.1 le_rfl, h.2.2.2.1 le_rfl,
    h.2.2.2.2.1 le_rfl, h.2.2.2.2.2.1 le_rfl⟩

/-- C6: the high-parts labour cost uses the flat per-part rate whenever it is
positive and at least one part qualifies, otherwise qualifying area × ft²
rate; a flat rate of $200 with 2 qualifying parts gives $400 for every
configured per-ft² rate. -/
theorem labour_high_parts_correct (c : ℕ) (qa flat rate : ℚ) :
    (0 < flat → 0 < c → labour_high_parts_cost c qa flat rate = (c : ℚ) * flat) ∧
    (¬(0 < flat ∧ 0 < c) → labour_high_parts_cost c qa flat rate = qa * rate) ∧
    labour_high_parts_cost 2 qa 200 rate = 400 := by
  refine ⟨fun h1 h2 => ?_, fun h => ?_, ?_⟩
  · rw [labour_high_parts_cost, if_pos ⟨h1, h2⟩]
  · rw [labour_high_parts_cost, if_neg h]
  · rw [labour_high_parts_cost, if_pos ⟨by norm_num, by norm_num⟩]
    norm_num

/-- C6 witness: flat rate $200 with 2 qualifying parts, area 50 ft² and ft²
rate $3 also set, gives 2 × $200 = $400 through the flat branch. -/
theorem labour_high_parts_correct_witness :
    labour_high_parts_cost 2 50 200 3 = ((2 : ℕ) : ℚ) * 200 ∧
    labour_high_parts_cost 2 50 200 3 = 400 :=
  ⟨(labour_high_parts_correct 2 50 200 3).1 (by norm_num) (by norm_num),
   (labour_high_parts_correct 2 50 200 3).2.2⟩

/-- C7: the material subtotal is the sum of quantity × unit cost over all
takeoff lines (RC line only when enabled, pot lights always); the no-tax
subtotal is material + area labour + high-part labour; the taxed total is
`subtotal * (1 + taxPct/100)` for every non-negative tax percentage; the cash
price equals the no-tax subtotal; and at 0 % tax the taxed total equals the
subtotal. -/
theorem pricing_engine_correct (inc_rc : Bool) (sh mp tr sb cb rc : ℤ) (plq : ℕ)
    (cps cmp ctr csb ccb crc plc alc hpc mat t : ℚ) (ht : 0 ≤ t) :
    material_subtotal inc_rc sh mp tr sb cb rc plq cps cmp ctr csb ccb crc plc =
      (sh : ℚ) * cps + (mp : ℚ) * cmp + (tr : ℚ) * ctr + (sb : ℚ) * csb + (cb : ℚ) * ccb +
        (if inc_rc = true then (rc : ℚ) * crc else 0) + (plq : ℚ) * plc ∧
    subtotal_no_tax mat (labour_subtotal alc hpc) = mat + alc + hpc ∧
    total_with_tax (subtotal_no_tax mat (labour_subtotal alc hpc)) t =
      subtotal_no_tax mat (labour_subtotal alc hpc) * (1 + t / 100) ∧
    cash_price (subtotal_no_tax mat (labour_subtotal alc hpc)) =
      subtotal_no_tax mat (labour_subtotal alc hpc) ∧
    total_with_tax (subtotal_no_tax mat (labour_subtotal alc hpc)) 0 =
      subtotal_no_tax mat (labour_subtotal alc hpc) := by
  refine ⟨?_, by rw [subtotal_no_tax, labour_subtotal, add_assoc], ?_, rfl, ?_⟩
  · cases inc_rc <;> simp [material_subtotal, materials_breakdown] <;> ring
  · rw [total_with_tax]
    split_ifs with h
    · rfl
    · have h0 : t = 0 := le_antisymm (not_lt.1 h) ht
      rw [h0]
      ring
  · rw [total_with_tax, if_neg (lt_irrefl 0)]

/-- C7 witness: material 60, area labour 30, high-part labour 10 give a
no-tax subtotal of 100, and 13 % tax multiplies it by 1.13. -/
theorem pricing_engine_correct_witness :
    subtotal_no_tax 60 (labour_subtotal 30 10) = 60 + 30 + 10 ∧
    total_with_tax (subtotal_no_tax 60 (labour_subtotal 30 10)) 13 =
      subtotal_no_tax 60 (labour_subtotal 30 10) * (1 + 13 / 100) := by
  have h := pricing_engine_correct true 1 1 1 1 1 1 0 1 1 1 1 1 1 0 30 10 60 13 (by norm_num)
  exact ⟨h.2.1, h.2.2.1⟩

/-- The RC accumulation loop from any start equals the start plus the sum of
per-room contributions. -/
theorem rc_total_lf_go (b : Bool) (rooms : List RoomSpec) (sp a : ℚ) :
    rooms.foldl (fun acc r => acc + rc_room_lf b r sp) a
      = a + (rooms.map (fun r => rc_room_lf b r sp)).sum := by
  induction rooms generalizing a with
  | nil => simp
  | cons r t ih => simp [ih, add_assoc]

/-- C8: a room with RC enabled, ceiling included and positive dimensions
contributes `(floor(width*12/spacing)+1) * length` linear feet; a room failing
any of those conditions contributes 0; the running total is the sum of
per-room contributions; and RC pieces are the ceiling of total linear feet
over the piece length when it is positive, else 0. -/
theorem rc_estimator_correct (r : RoomSpec) (spacing plen lf : ℚ) (hplen : 0 < plen) :
    (r.includeCeiling = true → 0 < r.width → 0 < r.length →
      rc_room_lf true r spacing = ((⌊r.width * 12 / spacing⌋ + 1 : ℤ) : ℚ) * r.length) ∧
    (¬(r.includeCeiling = true ∧ 0 < r.width ∧ 0 < r.length) →
      rc_room_lf true r spacing = 0) ∧
    rc_room_lf false r spacing = 0 ∧
    (∀ rooms : List RoomSpec, rc_total_lf true rooms spacing
      = (rooms.map (fun r2 => rc_room_lf true r2 spacing)).sum) ∧
    rc_pieces true lf plen = ⌈lf / plen⌉ ∧
    (∀ p : ℚ, p ≤ 0 → rc_pieces true lf p = 0) := by
  refine ⟨fun hc hw hl => ?_, fun h => ?_, ?_, fun rooms => ?_, ?_, fun p hp => ?_⟩
  · rw [rc_room_lf, if_pos ⟨rfl, hc, hw, hl⟩]
  · rw [rc_room_lf, if_neg (fun hcond => h ⟨hcond.2.1, hcond.2.2.1, hcond.2.2.2⟩)]
  · rw [rc_room_lf, if_neg (by simp)]
  · rw [rc_total_lf, rc_total_lf_go, zero_add]
  · rw [rc_pieces, if_pos rfl, if_pos hplen]
  · rw [rc_pieces, if_pos rfl, if_neg (not_lt.2 hp)]

/-- C8 witness: the 10×10 ceiling room at 16 in spacing contributes
(⌊10·12/16⌋+1)·10 = 80 lf, and 80 lf at 12 ft pieces needs ⌈80/12⌉ pieces. -/
theorem rc_estimator_correct_witness :
    rc_room_lf true exampleRoom 16 =
      ((⌊exampleRoom.width * 12 / 16⌋ + 1 : ℤ) : ℚ) * exampleRoom.length ∧
    rc_pieces true 80 12 = ⌈(80 : ℚ) / 12⌉ := by
  have h := rc_estimator_correct exampleRoom 16 12 80 (by norm_num)
  exact ⟨h.1 rfl (by norm_num [exampleRoom]) (by norm_num [exampleRoom]), h.2.2.2.2.1⟩

/-- C9: whenever the openings area reaches or exceeds the gross wall area the
net wall area is exactly 0, and the net wall area is never negative; the
clamp is a pure `max`, no error path exists. -/
theorem wall_area_net_clamp (r : RoomSpec) :
    (wall_area_gross r ≤ openings_area r → wall_area_net r = 0) ∧
    0 ≤ wall_area_net r := by
  constructor
  · intro h
    rw [wall_area_net, max_eq_right (sub_nonpos.2 h)]
  · exact le_max_right _ _

/-- C9 witness: the 2×2×1 room with a 10×10 window (openings 100 ft² ≥ gross
8 ft²) has net wall area 0. -/
theorem wall_area_net_clamp_witness : wall_area_net bigOpeningRoom = 0 :=
  (wall_area_net_clamp bigOpeningRoom).1
    (by norm_num [wall_area_gross, openings_area, perimeter, bigOpeningRoom])

/-- C10: with fixed non-negative factors, every integer takeoff quantity is
monotone non-decreasing in the total waste-adjusted area. -/
theorem takeoff_monotone (a1 a2 sa mgp pail tape ssf box cbp plen : ℚ)
    (h : a1 ≤ a2) (hmgp : 0 ≤ mgp) (hssf : 0 ≤ ssf) (hcbp : 0 ≤ cbp) :
    sheets a1 sa ≤ sheets a2 sa ∧
    mud_pails a1 mgp pail ≤ mud_pails a2 mgp pail ∧
    tape_rolls a1 tape ≤ tape_rolls a2 tape ∧
    screws_qty a1 ssf ≤ screws_qty a2 ssf ∧
    screws_boxes a1 ssf box ≤ screws_boxes a2 ssf box ∧
    corner_bead_pcs a1 cbp plen ≤ corner_bead_pcs a2 cbp plen := by
  have hq : screws_qty a1 ssf ≤ screws_qty a2 ssf :=
    Int.ceil_le_ceil (mul_le_mul_of_nonneg_right h hssf)
  refine ⟨?_, ?_, ?_, hq, ?_, ?_⟩
  · rw [sheets, sheets]
    split_ifs with hpos
    · exact Int.ceil_le_ceil ((div_le_div_iff_of_pos_right hpos).2 h)
    · exact le_rfl
  · rw [mud_pails, mud_pails]
    split_ifs with hpos
    · refine Int.ceil_le_ceil ((div_le_div_iff_of_pos_right hpos).2 ?_)
      exact mul_le_mul_of_nonneg_right ((div_le_div_iff_of_pos_right (by norm_num)).2 h) hmgp
    · exact le_rfl
  · rw [tape_rolls, tape_rolls]
    split_ifs with hpos
    · exact Int.ceil_le_ceil ((div_le_div_iff_of_pos_right hpos).2 h)
    · exact le_rfl
  · rw [screws_boxes, screws_boxes]
    split_ifs with hpos
    · exact Int.ceil_le_ceil ((div_le_div_iff_of_pos_right hpos).2 (Int.cast_le.2 hq))
    · exact le_rfl
  · rw [corner_bead_pcs, corner_bead_pcs]
    split_ifs with hpos
    · refine Int.ceil_le_ceil ((div_le_div_iff_of_pos_right hpos).2 ?_)
      exact mul_le_mul_of_nonneg_right ((div_le_div_iff_of_pos_right (by norm_num)).2 h) hcbp
    · exact le_rfl

/-- C10 witness: at areas 100 ≤ 200 with the default factors all six
quantities are monotone. -/
theorem takeoff_monotone_witness :
    sheets 100 32 ≤ sheets 200 32 ∧
    mud_pails 100 9.5 4.5 ≤ mud_pails 200 9.5 4.5 ∧
    tape_rolls 100 1200 ≤ tape_rolls 200 1200 ∧
    screws_qty 100 1.25 ≤ screws_qty 200 1.25 ∧
    screws_boxes 100 1.25 1000 ≤ screws_boxes 200 1.25 1000 ∧
    corner_bead_pcs 100 50 8 ≤ corner_bead_pcs 200 50 8 :=
  takeoff_monotone 100 200 32 9.5 4.5 1200 1.25 1000 50 8
    (by norm_num) (by norm_num) (by norm_num) (by norm_num)

end DrywallEstimator
